import Mathlib

/-!
# Verification of the flux-python-api legacy transform pipeline

A shallow embedding of `fluxpy/legacy/transform.py`: HDF5/Matlab matrix
loading, timestamp column labelling, coordinate indexing, and the CSV /
JSON / GeoJSON exporters, together with proofs of the specification's
claims about them.

Matrix values are modelled as rationals (the pipeline never does float
arithmetic on them; values pass through unchanged).  Python `datetime`
values are modelled as a count of seconds since 0001-01-01 00:00:00 of
the proleptic Gregorian calendar, exactly the ordinal arithmetic CPython's
`datetime` module uses; `str(datetime)` is modelled by `formatDatetime`.
-/

namespace Fluxpy

/-! ## Decimal digit strings

`padDigits k n` is the fixed-width, zero-padded decimal rendering of `n`
(the behaviour of `%0kd` for `n < 10^k`), used by `str(datetime)`.
`readDigits` is the usual left fold turning a digit string back into a
number. -/

def digitChar (n : Nat) : Char :=
  match n with
  | 0 => '0' | 1 => '1' | 2 => '2' | 3 => '3' | 4 => '4'
  | 5 => '5' | 6 => '6' | 7 => '7' | 8 => '8' | _ => '9'

def padDigits : Nat → Nat → List Char
  | 0, _ => []
  | k + 1, n => padDigits k (n / 10) ++ [digitChar (n % 10)]

def readDigits (cs : List Char) : Nat :=
  cs.foldl (fun a c => 10 * a + (c.toNat - 48)) 0

theorem padDigits_length (k n : Nat) : (padDigits k n).length = k := by
  induction k generalizing n with
  | zero => rfl
  | succ k ih => simp [padDigits, ih]

theorem digitChar_toNat (d : Nat) (hd : d < 10) : (digitChar d).toNat - 48 = d := by
  interval_cases d <;> rfl

theorem readDigits_aux (k : Nat) : ∀ (a n : Nat), n < 10 ^ k →
    (padDigits k n).foldl (fun a c => 10 * a + (c.toNat - 48)) a = a * 10 ^ k + n := by
  induction k with
  | zero => intro a n hn; interval_cases n; simp [padDigits]
  | succ k ih =>
    intro a n hn
    have hdiv : n / 10 < 10 ^ k := by
      rw [Nat.div_lt_iff_lt_mul (by norm_num)]
      calc n < 10 ^ (k + 1) := hn
        _ = 10 ^ k * 10 := by ring
    have hmod : n % 10 < 10 := Nat.mod_lt _ (by norm_num)
    simp only [padDigits, List.foldl_append, List.foldl_cons, List.foldl_nil]
    rw [ih a (n / 10) hdiv, digitChar_toNat _ hmod, pow_succ, ← mul_assoc]
    omega

theorem readDigits_padDigits (k n : Nat) (hn : n < 10 ^ k) :
    readDigits (padDigits k n) = n := by
  have := readDigits_aux k 0 n hn
  simpa [readDigits] using this

/-! ## The proleptic Gregorian calendar

These definitions mirror CPython's `datetime` module: `ymd_to_ord` is
`daysBeforeYear y + daysBeforeMonth y m + d`, and the inverse direction
is performed by searching for the year and then the month, as
`ord_to_ymd` does.  `findYear` / `findMonth` are fuelled versions of
those loops. -/

def isLeap (y : Nat) : Bool :=
  y % 4 == 0 && (y % 100 != 0 || y % 400 == 0)

def daysInYear (y : Nat) : Nat := if isLeap y then 366 else 365

def daysInMonth (y m : Nat) : Nat :=
  match m with
  | 2 => if isLeap y then 29 else 28
  | 4 | 6 | 9 | 11 => 30
  | _ => 31

def daysBeforeMonth (y : Nat) : Nat → Nat
  | m + 2 => daysBeforeMonth y (m + 1) + daysInMonth y (m + 1)
  | _ => 0

def daysBeforeYear (y : Nat) : Nat :=
  365 * (y - 1) + (y - 1) / 4 - (y - 1) / 100 + (y - 1) / 400

theorem daysBeforeYear_succ (y : Nat) (hy : 1 ≤ y) :
    daysBeforeYear (y + 1) = daysBeforeYear y + daysInYear y := by
  obtain ⟨k, rfl⟩ : ∃ k, y = k + 1 := ⟨y - 1, by omega⟩
  simp only [daysBeforeYear, daysInYear, isLeap, Nat.add_sub_cancel]
  have h4 : (k + 1) / 4 = k / 4 + if 4 ∣ k + 1 then 1 else 0 := Nat.succ_div k 4
  have h100 : (k + 1) / 100 = k / 100 + if 100 ∣ k + 1 then 1 else 0 := Nat.succ_div k 100
  have h400 : (k + 1) / 400 = k / 400 + if 400 ∣ k + 1 then 1 else 0 := Nat.succ_div k 400
  have e4 : (4 ∣ k + 1) ↔ (k + 1) % 4 = 0 := Nat.dvd_iff_mod_eq_zero
  have e100 : (100 ∣ k + 1) ↔ (k + 1) % 100 = 0 := Nat.dvd_iff_mod_eq_zero
  have e400 : (400 ∣ k + 1) ↔ (k + 1) % 400 = 0 := Nat.dvd_iff_mod_eq_zero
  simp only [Bool.and_eq_true, Bool.or_eq_true, beq_iff_eq, bne_iff_ne, ne_eq]
  split_ifs at * <;> simp_all <;> omega

theorem daysBeforeYear_mono {a b : Nat} (h : a ≤ b) :
    daysBeforeYear a ≤ daysBeforeYear b := by
  simp only [daysBeforeYear]
  have ha : a - 1 ≤ b - 1 := by omega
  have h4 : (a - 1) / 4 ≤ (b - 1) / 4 := Nat.div_le_div_right ha
  have h100 : (a - 1) / 100 ≤ (b - 1) / 100 := Nat.div_le_div_right ha
  have h400 : (a - 1) / 400 ≤ (b - 1) / 400 := Nat.div_le_div_right ha
  have hq : (a - 1) / 100 ≤ a - 1 := Nat.div_le_self _ _
  have hq2 : (b - 1) / 100 ≤ b - 1 := Nat.div_le_self _ _
  omega

theorem daysBeforeMonth_succ (y m : Nat) (hm : 1 ≤ m) :
    daysBeforeMonth y (m + 1) = daysBeforeMonth y m + daysInMonth y m := by
  obtain ⟨k, rfl⟩ : ∃ k, m = k + 1 := ⟨m - 1, by omega⟩
  rfl

theorem daysInMonth_pos (y m : Nat) : 0 < daysInMonth y m := by
  unfold daysInMonth
  split <;> first | omega | (split <;> omega)

theorem daysInMonth_le (y m : Nat) : daysInMonth y m ≤ 31 := by
  unfold daysInMonth
  split <;> first | omega | (split <;> omega)

theorem daysBeforeMonth_mono (y : Nat) {a b : Nat} (ha : 1 ≤ a) (h : a ≤ b) :
    daysBeforeMonth y a ≤ daysBeforeMonth y b := by
  induction b with
  | zero => omega
  | succ b ih =>
    rcases Nat.lt_or_ge a (b + 1) with hlt | hge
    · have hb : 1 ≤ b := by omega
      rw [daysBeforeMonth_succ y b hb]
      have := ih (by omega)
      omega
    · have heq : a = b + 1 := by omega
      rw [heq]

theorem daysBeforeMonth_13 (y : Nat) : daysBeforeMonth y 13 = daysInYear y := by
  rcases h : isLeap y with hv | hv <;>
    simp [daysBeforeMonth, daysInMonth, daysInYear, h]

theorem daysInYear_ge (y : Nat) : 365 ≤ daysInYear y := by
  unfold daysInYear; split <;> omega

def findYear : Nat → Nat → Nat → Nat × Nat
  | 0, y, n => (y, n)
  | fuel + 1, y, n =>
    if daysInYear y ≤ n then findYear fuel (y + 1) (n - daysInYear y) else (y, n)

def findMonth (y : Nat) : Nat → Nat → Nat → Nat × Nat
  | 0, m, n => (m, n)
  | fuel + 1, m, n =>
    if daysInMonth y m ≤ n then findMonth y fuel (m + 1) (n - daysInMonth y m)
    else (m, n)

theorem findYear_spec (fuel : Nat) : ∀ y n, n < fuel → 1 ≤ y →
    1 ≤ (findYear fuel y n).1 ∧ y ≤ (findYear fuel y n).1 ∧
    (findYear fuel y n).2 < daysInYear (findYear fuel y n).1 ∧
    daysBeforeYear (findYear fuel y n).1 + (findYear fuel y n).2 =
      daysBeforeYear y + n := by
  induction fuel with
  | zero => intro y n hn; omega
  | succ fuel ih =>
    intro y n hn hy
    by_cases h : daysInYear y ≤ n
    · have hpos : 0 < daysInYear y := by have := daysInYear_ge y; omega
      have hlt : n - daysInYear y < fuel := by omega
      have := ih (y + 1) (n - daysInYear y) hlt (by omega)
      have hstep := daysBeforeYear_succ y hy
      simp only [findYear, if_pos h]
      refine ⟨this.1, by omega, this.2.2.1, ?_⟩
      omega
    · simp only [findYear, if_neg h]
      exact ⟨hy, le_refl y, by omega, trivial⟩

theorem findMonth_spec (y fuel : Nat) : ∀ m n, n < fuel → 1 ≤ m →
    1 ≤ (findMonth y fuel m n).1 ∧ m ≤ (findMonth y fuel m n).1 ∧
    (findMonth y fuel m n).2 < daysInMonth y (findMonth y fuel m n).1 ∧
    daysBeforeMonth y (findMonth y fuel m n).1 + (findMonth y fuel m n).2 =
      daysBeforeMonth y m + n := by
  induction fuel with
  | zero => intro m n hn; omega
  | succ fuel ih =>
    intro m n hn hm
    by_cases h : daysInMonth y m ≤ n
    · have hpos := daysInMonth_pos y m
      have hlt : n - daysInMonth y m < fuel := by omega
      have := ih (m + 1) (n - daysInMonth y m) hlt (by omega)
      have hstep := daysBeforeMonth_succ y m hm
      simp only [findMonth, if_pos h]
      refine ⟨this.1, by omega, this.2.2.1, ?_⟩
      omega
    · simp only [findMonth, if_neg h]
      exact ⟨hm, le_refl m, by omega, trivial⟩

/-- Civil date (year, month, day) of day number `n`, where day 0 is
0001-01-01 of the proleptic Gregorian calendar (CPython ordinal `n + 1`). -/
def civilFromDays (n : Nat) : Nat × Nat × Nat :=
  let yr := findYear (n + 1) 1 n
  let mr := findMonth yr.1 (yr.2 + 1) 1 yr.2
  (yr.1, mr.1, mr.2 + 1)

theorem civilFromDays_spec (n : Nat) :
    1 ≤ (civilFromDays n).1 ∧ 1 ≤ (civilFromDays n).2.1 ∧
    (civilFromDays n).2.1 ≤ 12 ∧ 1 ≤ (civilFromDays n).2.2 ∧
    (civilFromDays n).2.2 ≤ 31 ∧
    daysBeforeYear (civilFromDays n).1 +
      daysBeforeMonth (civilFromDays n).1 (civilFromDays n).2.1 +
      ((civilFromDays n).2.2 - 1) = n := by
  have hy := findYear_spec (n + 1) 1 n (by omega) (le_refl 1)
  have hm := findMonth_spec (findYear (n + 1) 1 n).1 ((findYear (n + 1) 1 n).2 + 1) 1
    (findYear (n + 1) 1 n).2 (by omega) (le_refl 1)
  have hc : civilFromDays n = ((findYear (n + 1) 1 n).1,
      (findMonth (findYear (n + 1) 1 n).1 ((findYear (n + 1) 1 n).2 + 1) 1
        (findYear (n + 1) 1 n).2).1,
      (findMonth (findYear (n + 1) 1 n).1 ((findYear (n + 1) 1 n).2 + 1) 1
        (findYear (n + 1) 1 n).2).2 + 1) := rfl
  rw [hc]
  dsimp only
  set yr := findYear (n + 1) 1 n with hyr
  set mr := findMonth yr.1 (yr.2 + 1) 1 yr.2 with hmr
  have hm13 : mr.1 ≤ 12 := by
    by_contra hgt
    have h13 : (13 : Nat) ≤ mr.1 := by omega
    have hmono := daysBeforeMonth_mono yr.1 (by omega : (1:Nat) ≤ 13) h13
    rw [daysBeforeMonth_13] at hmono
    have hb1 : daysBeforeMonth yr.1 1 = 0 := rfl
    omega
  have hd31 : mr.2 + 1 ≤ 31 := by
    have := daysInMonth_le yr.1 mr.1
    omega
  have hb1 : daysBeforeMonth yr.1 1 = 0 := rfl
  have hdy1 : daysBeforeYear 1 = 0 := rfl
  refine ⟨hy.1, hm.1, hm13, by omega, hd31, ?_⟩
  omega

theorem civilFromDays_year_lt (n : Nat) (hn : n < 3652059) :
    (civilFromDays n).1 ≤ 9999 := by
  have hy := findYear_spec (n + 1) 1 n (by omega) (le_refl 1)
  by_contra hgt
  have h10000 : (10000 : Nat) ≤ (civilFromDays n).1 := by omega
  have hmono := daysBeforeYear_mono h10000
  have hval : daysBeforeYear 10000 = 3652059 := by norm_num [daysBeforeYear]
  have hspec := civilFromDays_spec n
  have hle : daysBeforeYear (civilFromDays n).1 ≤ n := by omega
  omega

/-! ## `str(datetime)` and its inverse

A Python `datetime` is modelled as its total count of seconds since
0001-01-01 00:00:00.  `formatDatetime` is `str(datetime)`: the
`"YYYY-MM-DD HH:MM:SS"` rendering (Python's `isoformat` with a space
separator and zero microseconds).  `parseDatetime` reads such a string
back, positionally, into seconds.  `datetimeMaxSeconds` is one past the
last representable Python datetime second (year 9999). -/

def datetimeMaxSeconds : Nat := 3652059 * 86400

def formatDatetime (t : Nat) : String :=
  let n := t / 86400
  let sod := t % 86400
  let c := civilFromDays n
  String.mk (padDigits 4 c.1 ++ '-' :: padDigits 2 c.2.1 ++ '-' :: padDigits 2 c.2.2 ++
    ' ' :: padDigits 2 (sod / 3600) ++ ':' :: padDigits 2 (sod % 3600 / 60) ++
    ':' :: padDigits 2 (sod % 60))

def parseDatetime (s : String) : Nat :=
  let cs := s.data
  let y := readDigits (cs.take 4)
  let mo := readDigits ((cs.drop 5).take 2)
  let d := readDigits ((cs.drop 8).take 2)
  let h := readDigits ((cs.drop 11).take 2)
  let mi := readDigits ((cs.drop 14).take 2)
  let sec := readDigits ((cs.drop 17).take 2)
  (daysBeforeYear y + daysBeforeMonth y mo + (d - 1)) * 86400 +
    h * 3600 + mi * 60 + sec

theorem take_first {α : Type} (l₁ l₂ : List α) (k : Nat) (h : l₁.length = k) :
    (l₁ ++ l₂).take k = l₁ := by
  subst h; exact List.take_left l₁ l₂

theorem drop_past {α : Type} (l₁ l₂ : List α) (k : Nat) (h : l₁.length = k) :
    (l₁ ++ l₂).drop k = l₂ := by
  subst h; exact List.drop_left l₁ l₂

/-- Parsing inverts formatting for every representable Python datetime. -/
theorem parseDatetime_formatDatetime (t : Nat) (ht : t < datetimeMaxSeconds) :
    parseDatetime (formatDatetime t) = t := by
  have hn : t / 86400 < 3652059 := by
    rw [Nat.div_lt_iff_lt_mul (by norm_num)]
    calc t < datetimeMaxSeconds := ht
      _ = 3652059 * 86400 := rfl
  obtain ⟨hy1, hm1, hm12, hd1, hd31, hsum⟩ := civilFromDays_spec (t / 86400)
  have hylt := civilFromDays_year_lt (t / 86400) hn
  have hsodlt : t % 86400 < 86400 := Nat.mod_lt _ (by norm_num)
  have hfm : (formatDatetime t).data =
      padDigits 4 (civilFromDays (t / 86400)).1 ++
        '-' :: padDigits 2 (civilFromDays (t / 86400)).2.1 ++
        '-' :: padDigits 2 (civilFromDays (t / 86400)).2.2 ++
        ' ' :: padDigits 2 (t % 86400 / 3600) ++
        ':' :: padDigits 2 (t % 86400 % 3600 / 60) ++
        ':' :: padDigits 2 (t % 86400 % 60) := rfl
  set sod := t % 86400 with hsod
  -- name the six digit groups
  set p1 := padDigits 4 (civilFromDays (t / 86400)).1 with hp1
  set p2 := padDigits 2 (civilFromDays (t / 86400)).2.1 with hp2
  set p3 := padDigits 2 (civilFromDays (t / 86400)).2.2 with hp3
  set p4 := padDigits 2 (sod / 3600) with hp4
  set p5 := padDigits 2 (sod % 3600 / 60) with hp5
  set p6 := padDigits 2 (sod % 60) with hp6
  have l1 : p1.length = 4 := padDigits_length _ _
  have l2 : p2.length = 2 := padDigits_length _ _
  have l3 : p3.length = 2 := padDigits_length _ _
  have l4 : p4.length = 2 := padDigits_length _ _
  have l5 : p5.length = 2 := padDigits_length _ _
  have l6 : p6.length = 2 := padDigits_length _ _
  have e1 : ((formatDatetime t).data.take 4) = p1 := by
    rw [hfm]; exact take_first _ _ _ l1
  have d5 : ((formatDatetime t).data.drop 5) = p2 ++ '-' :: p3 ++ ' ' :: p4 ++ ':' :: p5 ++ ':' :: p6 := by
    rw [hfm]
    have : p1 ++ '-' :: p2 ++ '-' :: p3 ++ ' ' :: p4 ++ ':' :: p5 ++ ':' :: p6 =
        (p1 ++ ['-']) ++ (p2 ++ '-' :: p3 ++ ' ' :: p4 ++ ':' :: p5 ++ ':' :: p6) := by
      simp
    rw [this]
    exact drop_past _ _ _ (by simp [l1])
  have e2 : ((formatDatetime t).data.drop 5).take 2 = p2 := by
    rw [d5]; exact take_first _ _ _ l2
  have d8 : ((formatDatetime t).data.drop 8) = p3 ++ ' ' :: p4 ++ ':' :: p5 ++ ':' :: p6 := by
    rw [hfm]
    have : p1 ++ '-' :: p2 ++ '-' :: p3 ++ ' ' :: p4 ++ ':' :: p5 ++ ':' :: p6 =
        (p1 ++ '-' :: p2 ++ ['-']) ++ (p3 ++ ' ' :: p4 ++ ':' :: p5 ++ ':' :: p6) := by
      simp
    rw [this]
    exact drop_past _ _ _ (by simp [l1, l2])
  have e3 : ((formatDatetime t).data.drop 8).take 2 = p3 := by
    rw [d8]; exact take_first _ _ _ l3
  have d11 : ((formatDatetime t).data.drop 11) = p4 ++ ':' :: p5 ++ ':' :: p6 := by
    rw [hfm]
    have : p1 ++ '-' :: p2 ++ '-' :: p3 ++ ' ' :: p4 ++ ':' :: p5 ++ ':' :: p6 =
        (p1 ++ '-' :: p2 ++ '-' :: p3 ++ [' ']) ++ (p4 ++ ':' :: p5 ++ ':' :: p6) := by
      simp
    rw [this]
    exact drop_past _ _ _ (by simp [l1, l2, l3])
  have e4 : ((formatDatetime t).data.drop 11).take 2 = p4 := by
    rw [d11]; exact take_first _ _ _ l4
  have d14 : ((formatDatetime t).data.drop 14) = p5 ++ ':' :: p6 := by
    rw [hfm]
    have : p1 ++ '-' :: p2 ++ '-' :: p3 ++ ' ' :: p4 ++ ':' :: p5 ++ ':' :: p6 =
        (p1 ++ '-' :: p2 ++ '-' :: p3 ++ ' ' :: p4 ++ [':']) ++ (p5 ++ ':' :: p6) := by
      simp
    rw [this]
    exact drop_past _ _ _ (by simp [l1, l2, l3, l4])
  have e5 : ((formatDatetime t).data.drop 14).take 2 = p5 := by
    rw [d14]; exact take_first _ _ _ l5
  have d17 : ((formatDatetime t).data.drop 17) = p6 := by
    rw [hfm]
    have : p1 ++ '-' :: p2 ++ '-' :: p3 ++ ' ' :: p4 ++ ':' :: p5 ++ ':' :: p6 =
        (p1 ++ '-' :: p2 ++ '-' :: p3 ++ ' ' :: p4 ++ ':' :: p5 ++ [':']) ++ p6 := by
      simp
    rw [this]
    exact drop_past _ _ _ (by simp [l1, l2, l3, l4, l5])
  have e6 : ((formatDatetime t).data.drop 17).take 2 = p6 := by
    rw [d17, ← l6]; exact List.take_length p6
  have h102 : (10 : Nat) ^ 2 = 100 := by norm_num
  have h104 : (10 : Nat) ^ 4 = 10000 := by norm_num
  have r1 : readDigits p1 = (civilFromDays (t / 86400)).1 := by
    rw [hp1]; exact readDigits_padDigits 4 _ (by omega)
  have r2 : readDigits p2 = (civilFromDays (t / 86400)).2.1 := by
    rw [hp2]; exact readDigits_padDigits 2 _ (by omega)
  have r3 : readDigits p3 = (civilFromDays (t / 86400)).2.2 := by
    rw [hp3]; exact readDigits_padDigits 2 _ (by omega)
  have r4 : readDigits p4 = sod / 3600 := by
    rw [hp4]; exact readDigits_padDigits 2 _ (by omega)
  have r5 : readDigits p5 = sod % 3600 / 60 := by
    rw [hp5]; exact readDigits_padDigits 2 _ (by omega)
  have r6 : readDigits p6 = sod % 60 := by
    rw [hp6]; exact readDigits_padDigits 2 _ (by omega)
  simp only [parseDatetime, e1, e2, e3, e4, e5, e6, r1, r2, r3, r4, r5, r6]
  rw [hsum]
  have hdm : 86400 * (t / 86400) + sod = t := by
    rw [hsod]; exact Nat.div_add_mod t 86400
  omega

/-! ## The transform pipeline (fluxpy/legacy/transform.py)

Matrices are lists of rows of rationals.  `mkDatetime` builds the
seconds value of a civil datetime, mirroring `datetime.datetime(y, mo,
d, h, mi, s)`; `defaultEpoch` is the module's default epoch
`datetime.datetime(2003, 12, 22, 3, 0, 0)`. -/

def mkDatetime (y mo d h mi s : Nat) : Nat :=
  (daysBeforeYear y + daysBeforeMonth y mo + (d - 1)) * 86400 + h * 3600 + mi * 60 + s

def defaultEpoch : Nat := mkDatetime 2003 12 22 3 0 0

/-- The character set of `.strip('_- 0123456789')`. -/
def stripSet : List Char :=
  ['_', '-', ' ', '0', '1', '2', '3', '4', '5', '6', '7', '8', '9']

/-- Python `s.strip('_- 0123456789')`: drop leading and trailing
characters belonging to `stripSet`. -/
def stripChars (s : List Char) : List Char :=
  ((s.dropWhile (stripSet.contains ·)).reverse.dropWhile (stripSet.contains ·)).reverse

/-- `path.split('.')[0].strip('_- 0123456789')`: the default variable
name used by `hdf5_to_dataframe` (on the full path) and by
`bulk_hdf5_to_csv` (on the bare filename). -/
def deriveVarName (path : String) : String :=
  String.mk (stripChars (path.data.takeWhile (· ≠ '.')))

/-- The column headers built by `hdf5_to_dataframe` / `mat_to_dataframe`:
`['lng', 'lat']` extended with `str(dt + relativedelta(hours=3*j))` for
`j in range(shape[1] - 2)` (Python's `range` of a negative count is
empty, matching truncated subtraction). -/
def makeCols (dt ncols : Nat) : List String :=
  ["lng", "lat"] ++ (List.range (ncols - 2)).map (fun j => formatDatetime (dt + 10800 * j))

/-- `df.set_index(['lng', 'lat'])`: row `r` becomes key
`(matrix[r][0], matrix[r][1])` with value sequence `matrix[r][2:]`. -/
def indexRows (m : List (List ℚ)) : List ((ℚ × ℚ) × List ℚ) :=
  m.map (fun r => ((r.getD 0 0, r.getD 1 0), r.drop 2))

/-- The in-memory result of `hdf5_to_dataframe` / `mat_to_dataframe`
after `set_index(['lng', 'lat'])`: the remaining (timestamp) column
labels and the MultiIndex-keyed rows, in original row order. -/
structure DataFrame where
  tsLabels : List String
  table : List ((ℚ × ℚ) × List ℚ)
deriving DecidableEq, Repr

/-- The named 2D variables stored in an HDF5 / Matlab container file. -/
def lookupVar (vars : List (String × List (List ℚ))) (v : String) :
    Option (List (List ℚ)) :=
  (vars.find? (fun p => p.1 == v)).map (·.2)

/-- `hdf5_to_dataframe(path, var_name, limit, dt)`.  The file's variables
stand in for `h5py.File(path)`; a missing variable is the propagated
lookup failure (`none`).  `var_name` defaults to
`path.split('.')[0].strip('_- 0123456789')` — note: computed on the full
`path`, directories included.  `dt` defaults to `defaultEpoch`. -/
def hdf5_to_dataframe (fileVars : List (String × List (List ℚ))) (path : String)
    (var_name : Option String) (limit : Option Nat) (dt : Option Nat) :
    Option DataFrame :=
  let vn := var_name.getD (deriveVarName path)
  let dtv := dt.getD defaultEpoch
  match lookupVar fileVars vn with
  | none => none
  | some m =>
    let ncols := (m.headD []).length
    let cols := makeCols dtv ncols
    let table := indexRows m
    match limit with
    | none => some ⟨cols.drop 2, table⟩
    | some l => some ⟨(cols.take (l + 2)).drop 2,
        table.map (fun kv => (kv.1, kv.2.take l))⟩

/-- `mat_to_dataframe(path, var_name, limit, dt)`: as above but the
variable name is a required argument (`scipy.io.loadmat` result lookup). -/
def mat_to_dataframe (matVars : List (String × List (List ℚ))) (var_name : String)
    (limit : Option Nat) (dt : Option Nat) : Option DataFrame :=
  match lookupVar matVars var_name with
  | none => none
  | some m =>
    let dtv := dt.getD defaultEpoch
    let ncols := (m.headD []).length
    let cols := makeCols dtv ncols
    let table := indexRows m
    match limit with
    | none => some ⟨cols.drop 2, table⟩
    | some l => some ⟨(cols.take (l + 2)).drop 2,
        table.map (fun kv => (kv.1, kv.2.take l))⟩

/-! ## Exporters -/

/-- The rows written by `to_csv`: `dataframe.T.to_csv(filename,
index=True)` writes the transpose — a header listing the grid-cell keys,
then one row per timestamp whose first column is the timestamp label. -/
structure CsvFile where
  headerKeys : List (ℚ × ℚ)
  rows : List (String × List ℚ)
deriving DecidableEq, Repr

def to_csv (df : DataFrame) : CsvFile :=
  ⟨df.table.map (·.1),
    (List.range df.tsLabels.length).map (fun i =>
      (df.tsLabels.getD i "", df.table.map (fun kv => kv.2.getD i 0)))⟩

/-- JSON documents, as produced by `json.dump` of the Python dicts,
lists, tuples, floats and strings involved (dict fields in literal
order). -/
inductive Json where
  | str : String → Json
  | num : ℚ → Json
  | arr : List Json → Json
  | obj : List (String × Json) → Json

/-- The comprehension body `{'coordinates': kv[0], 'flux': kv[1]}` of
`to_json`, at timestamp index `i`. -/
def jsonPoint (i : Nat) (kv : (ℚ × ℚ) × List ℚ) : Json :=
  Json.obj [("coordinates", Json.arr [Json.num kv.1.1, Json.num kv.1.2]),
    ("flux", Json.num (kv.2.getD i 0))]

/-- `to_json(dataframe)`: iterate over the transpose; per timestamp an
object `{'timestamp': ..., 'features': [[{'coordinates': kv[0], 'flux':
kv[1]}, ...]]}` (the outer `features` list is a singleton). -/
def to_json (df : DataFrame) : List Json :=
  (List.range df.tsLabels.length).map (fun i =>
    Json.obj [("timestamp", Json.str (df.tsLabels.getD i "")),
      ("features", Json.arr [Json.arr (df.table.map (jsonPoint i))])])

/-- The comprehension body `{'type': 'Point', 'coordinates': kv[0],
'properties': {'flux': kv[1]}}` of `to_geojson`, at timestamp index `i`. -/
def geoPoint (i : Nat) (kv : (ℚ × ℚ) × List ℚ) : Json :=
  Json.obj [("type", Json.str "Point"),
    ("coordinates", Json.arr [Json.num kv.1.1, Json.num kv.1.2]),
    ("properties", Json.obj [("flux", Json.num (kv.2.getD i 0))])]

/-- The per-timestamp nested FeatureCollection built by `to_geojson`. -/
def geoCollection (df : DataFrame) (i : Nat) : Json :=
  Json.obj [("type", Json.str "FeatureCollection"),
    ("properties", Json.obj [("timestamp", Json.str (df.tsLabels.getD i ""))]),
    ("features", Json.arr (df.table.map (geoPoint i)))]

/-- `to_geojson(dataframe)`: a top-level FeatureCollection whose
`features` holds one nested FeatureCollection per timestamp, each
nested one carrying `properties.timestamp` and per-key `Point` entries
with `properties.flux`. -/
def to_geojson (df : DataFrame) : Json :=
  Json.obj [("type", Json.str "FeatureCollection"),
    ("features", Json.arr ((List.range df.tsLabels.length).map (geoCollection df)))]

/-! ## Batch conversion (`bulk_hdf5_to_csv`) -/

/-- A directory entry: an HDF5 file that opens successfully (with its
named variables) or one whose `h5py.File` raises `IOError`. -/
inductive FSEntry where
  | readable : String → List (String × List (List ℚ)) → FSEntry
  | unreadable : String → FSEntry
deriving DecidableEq, Repr

def FSEntry.name : FSEntry → String
  | .readable n _ => n
  | .unreadable n => n

/-- Observable outcome of a batch run: CSV files written, diagnostics
printed to stderr, the `(filename, var_name)` pair used for each
matching file reached, and the uncaught error (if any) that aborted the
iteration. -/
structure BulkResult where
  outputs : List String
  diags : List String
  used : List (String × String)
  aborted : Option String
deriving DecidableEq, Repr

/-- `bulk_hdf5_to_csv(path, var_name, regex)` over a directory listing.
`flt` is `regex.match`; non-matching files are skipped.  A still-`None`
`var_name` is assigned from the current filename (so only the first
matching file triggers derivation).  `IOError` on open is caught: a
diagnostic naming `path` is emitted and iteration continues.  A missing
variable (`f.get(var_name)` returning `None`, then `None[:]`) raises an
uncaught `TypeError`, aborting the iteration. -/
def bulk_hdf5_to_csv (flt : String → Bool) (path : String) :
    Option String → List FSEntry → BulkResult
  | _, [] => ⟨[], [], [], none⟩
  | v, e :: rest =>
    if flt e.name then
      let w := v.getD (deriveVarName e.name)
      match e with
      | .unreadable _ =>
        let r := bulk_hdf5_to_csv flt path (some w) rest
        ⟨r.outputs, ("IOError encountered for " ++ path ++ "\n") :: r.diags,
          (e.name, w) :: r.used, r.aborted⟩
      | .readable n file =>
        match lookupVar file w with
        | none => ⟨[], [], [(n, w)], some "TypeError"⟩
        | some _ =>
          let r := bulk_hdf5_to_csv flt path (some w) rest
          ⟨(path ++ "/" ++ String.mk (n.data.takeWhile (· ≠ '.')) ++ ".csv") :: r.outputs,
            r.diags, (n, w) :: r.used, r.aborted⟩
    else bulk_hdf5_to_csv flt path v rest

/-- The name of the first directory entry accepted by the filename
filter, if any. -/
def firstMatchName (flt : String → Bool) (files : List FSEntry) : Option String :=
  (files.find? (fun e => flt e.name)).map FSEntry.name

/-! ## Supporting lemmas for the claims -/

set_option maxRecDepth 40000

theorem makeCols_length (dt C : Nat) : (makeCols dt C).length = 2 + (C - 2) := by
  simp [makeCols]
  omega

theorem makeCols_get (dt C i : Nat) (hi : i < C - 2) :
    (makeCols dt C).get? (2 + i) = some (formatDatetime (dt + 10800 * i)) := by
  simp only [makeCols]
  rw [List.get?_append_right (by simp)]
  have h2 : 2 + i - List.length ["lng", "lat"] = i := by simp
  rw [h2, List.get?_map, List.get?_range hi]
  rfl

theorem makeCols_getD (dt C i : Nat) (hi : i < C - 2) :
    (makeCols dt C).getD (2 + i) "" = formatDatetime (dt + 10800 * i) := by
  rw [List.getD_eq_getD_get?, makeCols_get dt C i hi]
  rfl

/-! ## The claims -/

/-- **C1** (counterexample): on the example matrix with the default
epoch and 3-hour step, the produced column labels are *not* the
`'T'`-separated ISO strings the claim states — `str(datetime)` uses a
space separator. -/
theorem claim1_counterexample :
    makeCols defaultEpoch 5 ≠
      ["lng", "lat", "2003-12-22T03:00:00", "2003-12-22T06:00:00", "2003-12-22T09:00:00"] := by
  decide

/-- **C1** (amended): for the input matrix `[[-166.5, 65.5, 1.0, 2.0,
3.0]]` with epoch 2003-12-22 03:00 and step 3 hours, the loader/labeler
pipeline produces column labels `["lng", "lat", "2003-12-22 03:00:00",
"2003-12-22 06:00:00", "2003-12-22 09:00:00"]` (space-separated
`str(datetime)` strings) and the indexed table
`{(-166.5, 65.5): [1.0, 2.0, 3.0]}`. -/
theorem claim1_example :
    hdf5_to_dataframe [("casa", [[-166.5, 65.5, 1, 2, 3]])] "casa.mat" none none none =
      some ⟨["2003-12-22 03:00:00", "2003-12-22 06:00:00", "2003-12-22 09:00:00"],
        [((-166.5, 65.5), [1, 2, 3])]⟩
    ∧ makeCols defaultEpoch 5 =
      ["lng", "lat", "2003-12-22 03:00:00", "2003-12-22 06:00:00", "2003-12-22 09:00:00"] :=
  ⟨by rfl, by rfl⟩

/-- **C2** (counterexample): for the path `"/a/b1.mat"` the code derives
`"/a/b"` — the directory part is *not* stripped, contradicting the
claim's `"b"`. -/
theorem claim2_counterexample :
    deriveVarName "/a/b1.mat" = "/a/b" ∧ deriveVarName "/a/b1.mat" ≠ "b" := by
  constructor
  · rfl
  · decide

theorem takeWhile_until_dot (base : List Char) (ext : List Char) (hb : '.' ∉ base) :
    (base ++ '.' :: ext).takeWhile (· ≠ '.') = base := by
  rw [List.takeWhile_append_of_pos (by
    intro a ha
    simp only [ne_eq, decide_eq_true_eq]
    intro h; exact hb (h ▸ ha))]
  simp [List.takeWhile_cons]

/-- **C2** (amended): with no explicit variable name the loader takes
the part of the path before the first `'.'` and strips
leading/trailing digits, underscores, hyphens and spaces; the directory
part is *not* stripped, so a path beginning with `'/'` yields a derived
name still beginning with `'/'`. -/
theorem claim2_derivation (base ext rest : List Char) (hb : '.' ∉ base) :
    deriveVarName (String.mk (base ++ '.' :: ext)) = String.mk (stripChars base)
    ∧ (deriveVarName (String.mk ('/' :: rest))).data.head? = some '/' := by
  constructor
  · simp only [deriveVarName]
    rw [takeWhile_until_dot base ext hb]
  · simp only [deriveVarName]
    have hslash : stripSet.contains '/' = false := by decide
    have htw : ('/' :: rest).takeWhile (· ≠ '.') =
        '/' :: rest.takeWhile (· ≠ '.') := by
      simp [List.takeWhile_cons]
    rw [htw]
    have hdw : (('/' : Char) :: rest.takeWhile (· ≠ '.')).dropWhile (stripSet.contains ·) =
        '/' :: rest.takeWhile (· ≠ '.') := by
      rw [List.dropWhile_cons, if_neg (by decide)]
    simp only [stripChars, hdw]
    rw [show (('/' : Char) :: rest.takeWhile (· ≠ '.')).reverse =
      (rest.takeWhile (· ≠ '.')).reverse ++ ['/'] from by simp]
    rw [List.dropWhile_append]
    by_cases he : ((rest.takeWhile (· ≠ '.')).reverse.dropWhile (stripSet.contains ·)).isEmpty
    · rw [if_pos he]
      rw [show (['/'] : List Char).dropWhile (stripSet.contains ·) = ['/'] from by decide]
      rfl
    · rw [if_neg he]
      rw [List.reverse_append]
      obtain ⟨c, l, hl⟩ : ∃ c l,
          (rest.takeWhile (· ≠ '.')).reverse.dropWhile (stripSet.contains ·) = c :: l := by
        rcases h : (rest.takeWhile (· ≠ '.')).reverse.dropWhile (stripSet.contains ·) with
          _ | ⟨c, l⟩
        · rw [h] at he; simp at he
        · exact ⟨c, l, rfl⟩
      rw [hl]
      rfl

/-- **C3** (counterexample): for a matrix with `C = 0` columns the
labeler still produces the two coordinate labels, so `len(ColumnLabels)`
is `2`, not `C`. -/
theorem claim3_counterexample :
    makeCols defaultEpoch 0 = ["lng", "lat"] ∧ (makeCols defaultEpoch 0).length ≠ 0 :=
  ⟨rfl, by decide⟩

/-- **C3** (amended): the labeler produces `2 + (C − 2)` labels (with
truncated subtraction), whose first two are `"lng"`, `"lat"` and whose
label `2 + i` is `format(epoch + i·step)` for `i < C − 2`; for `C ≥ 2`
the length is exactly `C`, while for `C < 2` it is `2`, not `C`. -/
theorem claim3_labels (dt C : Nat) :
    (makeCols dt C).length = 2 + (C - 2)
    ∧ (makeCols dt C).take 2 = ["lng", "lat"]
    ∧ (2 ≤ C → (makeCols dt C).length = C)
    ∧ ∀ i, i < C - 2 → (makeCols dt C).get? (2 + i) = some (formatDatetime (dt + 10800 * i)) := by
  refine ⟨makeCols_length dt C, rfl, ?_, fun i hi => makeCols_get dt C i hi⟩
  intro h2
  have hl := makeCols_length dt C
  omega

/-- Witness for `claim3_labels` at `dt = 0`, `C = 5`. -/
theorem claim3_labels_witness :
    (makeCols 0 5).length = 5 ∧ (makeCols 0 5).get? 2 = some (formatDatetime 0) := by
  refine ⟨(claim3_labels 0 5).2.2.1 (by norm_num), ?_⟩
  have h := (claim3_labels 0 5).2.2.2 0 (by norm_num)
  simpa using h

/-- **C4** (confirmed): for every epoch representable as a Python
datetime together with all its labels, consecutive parsed timestamp
labels are strictly increasing and spaced by exactly the step of 3
hours (10800 seconds). -/
theorem claim4_spacing (dt C : Nat) (hrep : dt + 10800 * (C - 2) ≤ datetimeMaxSeconds)
    (i : Nat) (hi : i + 1 < C - 2) :
    parseDatetime ((makeCols dt C).getD (2 + i + 1) "") =
      parseDatetime ((makeCols dt C).getD (2 + i) "") + 10800
    ∧ parseDatetime ((makeCols dt C).getD (2 + i) "") <
      parseDatetime ((makeCols dt C).getD (2 + i + 1) "") := by
  have hg1 : (makeCols dt C).getD (2 + i) "" = formatDatetime (dt + 10800 * i) :=
    makeCols_getD dt C i (by omega)
  have hg2 : (makeCols dt C).getD (2 + (i + 1)) "" = formatDatetime (dt + 10800 * (i + 1)) :=
    makeCols_getD dt C (i + 1) hi
  have ha : 2 + i + 1 = 2 + (i + 1) := by omega
  rw [ha, hg1, hg2]
  have hb1 : dt + 10800 * i < datetimeMaxSeconds := by
    have : 10800 * (i + 1) ≤ 10800 * (C - 2) := by
      have := Nat.mul_le_mul_left 10800 (show i + 1 ≤ C - 2 by omega)
      omega
    omega
  have hb2 : dt + 10800 * (i + 1) < datetimeMaxSeconds := by
    have h1 : i + 2 ≤ C - 2 := by omega
    have := Nat.mul_le_mul_left 10800 h1
    omega
  rw [parseDatetime_formatDatetime _ hb1, parseDatetime_formatDatetime _ hb2]
  omega

/-- Witness for `claim4_spacing` at `dt = 0`, `C = 5`, `i = 0`. -/
theorem claim4_spacing_witness :
    parseDatetime ((makeCols 0 5).getD 3 "") = parseDatetime ((makeCols 0 5).getD 2 "") + 10800
    ∧ parseDatetime ((makeCols 0 5).getD 2 "") < parseDatetime ((makeCols 0 5).getD 3 "") :=
  claim4_spacing 0 5 (by norm_num [datetimeMaxSeconds]) 0 (by norm_num)

/-- **C5** (confirmed): for a matrix whose rows all have length `C ≥ 2`
(`shape[1] = C`) and whose coordinate pairs are pairwise distinct, the
indexer keys row `r` by `(matrix[r][0], matrix[r][1])` with value
sequence `matrix[r][2:]` of length `C − 2`, producing one entry per row,
aligned with the `C − 2` timestamp labels. -/
theorem claim5_indexer (v : String) (m : List (List ℚ)) (C : Nat)
    (hC : ∀ r ∈ m, r.length = C) (hhead : (m.headD []).length = C) (h2 : 2 ≤ C)
    (hdist : (m.map (fun r => (r.getD 0 0, r.getD 1 0))).Pairwise (· ≠ ·)) :
    mat_to_dataframe [(v, m)] v none none =
      some ⟨(makeCols defaultEpoch C).drop 2, indexRows m⟩
    ∧ (indexRows m).length = m.length
    ∧ ((makeCols defaultEpoch C).drop 2).length = C - 2
    ∧ ∀ r row, m.get? r = some row →
        (indexRows m).get? r = some ((row.getD 0 0, row.getD 1 0), row.drop 2)
        ∧ (row.drop 2).length = C - 2 := by
  have hlk : lookupVar [(v, m)] v = some m := by simp [lookupVar]
  refine ⟨?_, by simp [indexRows], ?_, ?_⟩
  · simp only [mat_to_dataframe, hlk, hhead, Option.getD_none]
  · rw [List.length_drop, makeCols_length]
    omega
  · intro r row hrow
    constructor
    · simp only [indexRows, List.get?_map, hrow, Option.map_some']
    · rw [List.length_drop, hC row (List.get?_mem hrow)]

/-- Witness for `claim5_indexer` on the example matrix. -/
theorem claim5_indexer_witness :
    mat_to_dataframe [("casa", [[-166.5, 65.5, 1, 2, 3]])] "casa" none none =
      some ⟨(makeCols defaultEpoch 5).drop 2, indexRows [[-166.5, 65.5, 1, 2, 3]]⟩
    ∧ (indexRows [[-166.5, 65.5, 1, 2, 3]]).length = 1
    ∧ ((makeCols defaultEpoch 5).drop 2).length = 3 := by
  have h := claim5_indexer "casa" [[-166.5, 65.5, 1, 2, 3]] 5
    (by intro r hr; simp at hr; rw [hr]; rfl) rfl (by norm_num) (by simp)
  exact ⟨h.1, by simpa using h.2.1, by simpa using h.2.2.1⟩

/-- Witness for `claim2_derivation` at `base = "b1"`, `ext = "mat"`. -/
theorem claim2_derivation_witness :
    deriveVarName (String.mk (['b', '1'] ++ '.' :: ['m', 'a', 't'])) =
      String.mk (stripChars ['b', '1'])
    ∧ (deriveVarName (String.mk ('/' :: ['x']))).data.head? = some '/' :=
  claim2_derivation ['b', '1'] ['m', 'a', 't'] ['x'] (by decide)

/-- **C6** (confirmed): in batch mode, an `IOError` opening a matching
file is caught — a diagnostic line naming the directory is emitted, the
file produces no CSV, and iteration continues over the remaining files
unchanged; a missing variable on a matching readable file is not
caught: it aborts the run, and neither this file nor any later file
produces output. -/
theorem claim6_errors (flt : String → Bool) (path : String) (v : Option String)
    (n : String) (file : List (String × List (List ℚ))) (rest : List FSEntry)
    (hm : flt n = true) :
    ((bulk_hdf5_to_csv flt path v (.unreadable n :: rest)).diags =
        ("IOError encountered for " ++ path ++ "\n") ::
          (bulk_hdf5_to_csv flt path (some (v.getD (deriveVarName n))) rest).diags
      ∧ (bulk_hdf5_to_csv flt path v (.unreadable n :: rest)).outputs =
          (bulk_hdf5_to_csv flt path (some (v.getD (deriveVarName n))) rest).outputs
      ∧ (bulk_hdf5_to_csv flt path v (.unreadable n :: rest)).aborted =
          (bulk_hdf5_to_csv flt path (some (v.getD (deriveVarName n))) rest).aborted)
    ∧ (lookupVar file (v.getD (deriveVarName n)) = none →
        (bulk_hdf5_to_csv flt path v (.readable n file :: rest)).aborted = some "TypeError"
        ∧ (bulk_hdf5_to_csv flt path v (.readable n file :: rest)).outputs = []) := by
  constructor
  · simp [bulk_hdf5_to_csv, FSEntry.name, hm]
  · intro hlk
    simp [bulk_hdf5_to_csv, FSEntry.name, hm, hlk]

/-- Witness for `claim6_errors` on a one-file directory. -/
theorem claim6_errors_witness :
    (bulk_hdf5_to_csv (fun _ => true) "/data" none [.unreadable "Month_Uncert1.mat"]).diags =
      ["IOError encountered for /data\n"]
    ∧ (bulk_hdf5_to_csv (fun _ => true) "/data" none
        [.readable "Month_Uncert1.mat" []]).aborted = some "TypeError" := by
  have h := claim6_errors (fun _ => true) "/data" none "Month_Uncert1.mat" [] [] rfl
  exact ⟨by rw [h.1.1]; rfl, (h.2 rfl).1⟩

theorem bulk_used_of_some (flt : String → Bool) (path : String) (w : String) :
    ∀ files, ∀ p ∈ (bulk_hdf5_to_csv flt path (some w) files).used, p.2 = w := by
  intro files
  induction files with
  | nil => intro p hp; simp [bulk_hdf5_to_csv] at hp
  | cons e rest ih =>
    intro p hp
    by_cases hf : flt e.name
    · cases e with
      | unreadable n =>
        simp only [bulk_hdf5_to_csv, FSEntry.name] at hp hf
        rw [if_pos hf] at hp
        simp only [Option.getD_some] at hp
        rcases List.mem_cons.mp hp with h1 | h2
        · rw [h1]
        · exact ih p h2
      | readable n file =>
        simp only [bulk_hdf5_to_csv, FSEntry.name] at hp hf
        rw [if_pos hf] at hp
        simp only [Option.getD_some] at hp
        split at hp
        · simp only [List.mem_singleton] at hp
          rw [hp]
        · rcases List.mem_cons.mp hp with h1 | h2
          · rw [h1]
          · exact ih p h2
    · simp only [bulk_hdf5_to_csv, FSEntry.name] at hp hf
      rw [if_neg hf] at hp
      exact ih p hp

/-- **C10** (confirmed): with no explicit variable name, the batch
conversion derives the variable name from the first matching filename
only, and every file the iteration reaches uses that same derived
name. -/
theorem claim10_first_file_name (flt : String → Bool) (path : String)
    (files : List FSEntry) (n₀ : String) (h : firstMatchName flt files = some n₀) :
    ∀ p ∈ (bulk_hdf5_to_csv flt path none files).used, p.2 = deriveVarName n₀ := by
  induction files with
  | nil => simp [firstMatchName] at h
  | cons e rest ih =>
    by_cases hf : flt e.name
    · have hn : e.name = n₀ := by
        simp only [firstMatchName] at h
        rw [List.find?_cons_of_pos rest
          (show (fun x : FSEntry => flt x.name) e = true from hf)] at h
        simpa using h
      intro p hp
      cases e with
      | unreadable n =>
        simp only [FSEntry.name] at hf hn
        simp only [bulk_hdf5_to_csv, FSEntry.name] at hp
        rw [if_pos hf] at hp
        simp only [Option.getD_none] at hp
        rcases List.mem_cons.mp hp with h1 | h2
        · rw [h1, ← hn]
        · rw [← hn]
          exact bulk_used_of_some flt path (deriveVarName n) rest p h2
      | readable n file =>
        simp only [FSEntry.name] at hf hn
        simp only [bulk_hdf5_to_csv, FSEntry.name] at hp
        rw [if_pos hf] at hp
        simp only [Option.getD_none] at hp
        split at hp
        · simp only [List.mem_singleton] at hp
          rw [hp, ← hn]
        · rcases List.mem_cons.mp hp with h1 | h2
          · rw [h1, ← hn]
          · rw [← hn]
            exact bulk_used_of_some flt path (deriveVarName n) rest p h2
    · have hrest : firstMatchName flt rest = some n₀ := by
        simp only [firstMatchName] at h ⊢
        rw [List.find?_cons_of_neg rest
          (show ¬ (fun x : FSEntry => flt x.name) e = true from by simpa using hf)] at h
        exact h
      intro p hp
      simp only [bulk_hdf5_to_csv] at hp
      rw [if_neg hf] at hp
      exact ih hrest p hp

/-- Witness for `claim10_first_file_name` on a two-file directory. -/
theorem claim10_first_file_name_witness :
    ((bulk_hdf5_to_csv (fun _ => true) "/d" none
        [.unreadable "Month_Uncert1.mat", .unreadable "Month_Uncert2.mat"]).used.getD
      1 ("", "")).2 = deriveVarName "Month_Uncert1.mat" := by
  have h := claim10_first_file_name (fun _ => true) "/d"
    [.unreadable "Month_Uncert1.mat", .unreadable "Month_Uncert2.mat"] "Month_Uncert1.mat" rfl
  exact h _ (by decide)

/-- **C7** (confirmed): the CSV exporter writes the transpose of the
indexed table: the header lists the grid-cell keys, there is one data
row per timestamp whose first column is that timestamp's label, and
each data row carries one value per key. -/
theorem claim7_csv (df : DataFrame) :
    (to_csv df).headerKeys = df.table.map Prod.fst
    ∧ (to_csv df).rows.length = df.tsLabels.length
    ∧ ∀ i lab, df.tsLabels.get? i = some lab →
        (to_csv df).rows.get? i = some (lab, df.table.map (fun kv => kv.2.getD i 0))
        ∧ (df.table.map (fun kv => kv.2.getD i 0)).length = df.table.length := by
  refine ⟨rfl, by simp [to_csv], ?_⟩
  intro i lab hlab
  have hi : i < df.tsLabels.length := by
    rcases List.get?_eq_some.mp hlab with ⟨hlen, _⟩
    exact hlen
  refine ⟨?_, by simp⟩
  simp only [to_csv]
  rw [List.get?_map, List.get?_range hi, Option.map_some']
  rw [List.getD_eq_getD_get?, hlab]
  rfl

/-- Witness for `claim7_csv` on a two-timestamp, two-key table. -/
theorem claim7_csv_witness :
    (to_csv ⟨["a", "b"], [((1, 2), [3, 4]), ((5, 6), [7, 8])]⟩).headerKeys =
      (DataFrame.mk ["a", "b"] [((1, 2), [3, 4]), ((5, 6), [7, 8])]).table.map Prod.fst
    ∧ (to_csv ⟨["a", "b"], [((1, 2), [3, 4]), ((5, 6), [7, 8])]⟩).rows.get? 0 =
      some ("a", (DataFrame.mk ["a", "b"] [((1, 2), [3, 4]), ((5, 6), [7, 8])]).table.map
        (fun kv => kv.2.getD 0 0)) :=
  ⟨(claim7_csv ⟨["a", "b"], [((1, 2), [3, 4]), ((5, 6), [7, 8])]⟩).1,
    ((claim7_csv ⟨["a", "b"], [((1, 2), [3, 4]), ((5, 6), [7, 8])]⟩).2.2 0 "a" rfl).1⟩

/-- **C8** (confirmed): the point-JSON exporter emits one object per
timestamp of the form `{timestamp, features: [[record, ...]]}` whose
`features` member is a singleton outer list wrapping the list of one
`{coordinates, flux}` record per grid-cell key. -/
theorem claim8_pointjson (df : DataFrame) :
    (to_json df).length = df.tsLabels.length
    ∧ ∀ i lab, df.tsLabels.get? i = some lab →
        (to_json df).get? i = some (Json.obj [("timestamp", Json.str lab),
          ("features", Json.arr [Json.arr (df.table.map (jsonPoint i))])])
        ∧ (df.table.map (jsonPoint i)).length = df.table.length
        ∧ ∀ k key vals, df.table.get? k = some (key, vals) →
            (df.table.map (jsonPoint i)).get? k =
              some (Json.obj [("coordinates", Json.arr [Json.num key.1, Json.num key.2]),
                ("flux", Json.num (vals.getD i 0))]) := by
  refine ⟨by simp [to_json], ?_⟩
  intro i lab hlab
  have hi : i < df.tsLabels.length := by
    rcases List.get?_eq_some.mp hlab with ⟨hlen, _⟩
    exact hlen
  refine ⟨?_, by simp, ?_⟩
  · simp only [to_json]
    rw [List.get?_map, List.get?_range hi, Option.map_some']
    rw [List.getD_eq_getD_get?, hlab]
    rfl
  · intro k key vals hk
    rw [List.get?_map, hk, Option.map_some']
    rfl

/-- Witness for `claim8_pointjson` on a two-timestamp, two-key table. -/
theorem claim8_pointjson_witness :
    (to_json ⟨["a", "b"], [((1, 2), [3, 4]), ((5, 6), [7, 8])]⟩).get? 0 =
      some (Json.obj [("timestamp", Json.str "a"),
        ("features", Json.arr [Json.arr
          ((DataFrame.mk ["a", "b"] [((1, 2), [3, 4]), ((5, 6), [7, 8])]).table.map
            (jsonPoint 0))])])
    ∧ ((DataFrame.mk ["a", "b"] [((1, 2), [3, 4]), ((5, 6), [7, 8])]).table.map
        (jsonPoint 0)).get? 0 =
      some (Json.obj [("coordinates", Json.arr [Json.num 1, Json.num 2]),
        ("flux", Json.num 3)]) := by
  have h := (claim8_pointjson ⟨["a", "b"], [((1, 2), [3, 4]), ((5, 6), [7, 8])]⟩).2 0 "a" rfl
  exact ⟨h.1, h.2.2 0 (1, 2) [3, 4] rfl⟩

/-- **C9** (confirmed): the GeoJSON exporter emits a single top-level
FeatureCollection whose `features` array holds exactly one nested
FeatureCollection per timestamp; each nested collection carries
`properties.timestamp` equal to that timestamp's label and a `features`
array with one Point (with `properties.flux`) per grid-cell key. -/
theorem claim9_geojson (df : DataFrame) :
    to_geojson df = Json.obj [("type", Json.str "FeatureCollection"),
      ("features", Json.arr ((List.range df.tsLabels.length).map (geoCollection df)))]
    ∧ ((List.range df.tsLabels.length).map (geoCollection df)).length = df.tsLabels.length
    ∧ ∀ i lab, df.tsLabels.get? i = some lab →
        ((List.range df.tsLabels.length).map (geoCollection df)).get? i =
          some (Json.obj [("type", Json.str "FeatureCollection"),
            ("properties", Json.obj [("timestamp", Json.str lab)]),
            ("features", Json.arr (df.table.map (geoPoint i)))])
        ∧ (df.table.map (geoPoint i)).length = df.table.length
        ∧ ∀ k key vals, df.table.get? k = some (key, vals) →
            (df.table.map (geoPoint i)).get? k =
              some (Json.obj [("type", Json.str "Point"),
                ("coordinates", Json.arr [Json.num key.1, Json.num key.2]),
                ("properties", Json.obj [("flux", Json.num (vals.getD i 0))])]) := by
  refine ⟨rfl, by simp, ?_⟩
  intro i lab hlab
  have hi : i < df.tsLabels.length := by
    rcases List.get?_eq_some.mp hlab with ⟨hlen, _⟩
    exact hlen
  refine ⟨?_, by simp, ?_⟩
  · rw [List.get?_map, List.get?_range hi, Option.map_some']
    simp only [geoCollection]
    rw [List.getD_eq_getD_get?, hlab]
    rfl
  · intro k key vals hk
    rw [List.get?_map, hk, Option.map_some']
    rfl

/-- Witness for `claim9_geojson` on a two-timestamp, two-key table. -/
theorem claim9_geojson_witness :
    ((List.range (DataFrame.mk ["a", "b"]
        [((1, 2), [3, 4]), ((5, 6), [7, 8])]).tsLabels.length).map
      (geoCollection ⟨["a", "b"], [((1, 2), [3, 4]), ((5, 6), [7, 8])]⟩)).get? 0 =
      some (Json.obj [("type", Json.str "FeatureCollection"),
        ("properties", Json.obj [("timestamp", Json.str "a")]),
        ("features", Json.arr ((DataFrame.mk ["a", "b"]
          [((1, 2), [3, 4]), ((5, 6), [7, 8])]).table.map (geoPoint 0)))])
    ∧ ((DataFrame.mk ["a", "b"] [((1, 2), [3, 4]), ((5, 6), [7, 8])]).table.map
        (geoPoint 0)).get? 1 =
      some (Json.obj [("type", Json.str "Point"),
        ("coordinates", Json.arr [Json.num 5, Json.num 6]),
        ("properties", Json.obj [("flux", Json.num 7)])]) := by
  have h := (claim9_geojson ⟨["a", "b"], [((1, 2), [3, 4]), ((5, 6), [7, 8])]⟩).2.2 0 "a" rfl
  exact ⟨h.1, h.2.2 1 (5, 6) [7, 8] rfl⟩

end Fluxpy
